import Mathlib

/-!
Shallow embedding of the arxow research-paper-analyzer front-end.

The repository contains two near-duplicate React client pages:
* variant A, `src/frontend/app/page.js` — the single-request client
  (re-uploads the file on every analysis pass);
* variant B, `src/unnamed/part_000` — the two-phase client
  (uploads once, obtaining a `document_id`, then analyzes by id, and also
  stores an image list and document metadata).

We model JavaScript JSON values with the inductive `Json` (numbers are
modelled as integers; floating-point literals are out of scope), React
component state with explicit state records (`StateA`, `StateB`), and each
event handler (`handleFileUpload`, `analyzePaper`, `uploadDocument`, the
pass-button `onClick`s) as a pure state-transition function.  Asynchronous
fetches are modelled by passing the transport's outcome as an explicit
parameter (`none` = network error or a `response.json()` failure, both of
which land in the same `catch`) and by returning the list of requests the
handler issued, so that "transport call count" is the length of that list.
JS `null` and `undefined` are conflated as `Json.null` / `Option.none`:
everywhere they are used in these components only their falsiness and
their rendering matter, which coincide.
-/

/-- JavaScript JSON values, with numbers restricted to integers.  -/
inductive Json where
  | null : Json
  | bool : Bool → Json
  | num : Int → Json
  | str : String → Json
  | arr : List Json → Json
  | obj : List (String × Json) → Json
deriving Repr

/-- JS truthiness of a `Json` value (`if (v)`): `null`/`undefined`, `false`,
`0` and `""` are falsy; every array and object is truthy. -/
def jsTruthy : Json → Bool
  | .null => false
  | .bool b => b
  | .num n => n != 0
  | .str s => !s.isEmpty
  | .arr _ => true
  | .obj _ => true

/-- JS truthiness of an optional string (used for `documentId`):
`null`/`undefined` and `""` are falsy. -/
def jsTruthyStr : Option String → Bool
  | none => false
  | some s => !s.isEmpty

/-- Whether `typeof v === "object"` holds in JS: true for `null`, arrays
and plain objects, false for booleans, numbers and strings. -/
def typeofIsObject : Json → Bool
  | .null => true
  | .arr _ => true
  | .obj _ => true
  | _ => false

mutual

/-- The text React produces for a JSX child `{v}`: strings verbatim,
numbers in decimal, `null`/`undefined`/booleans render as nothing, arrays
render as the concatenation of their children.  (An object child would be
rejected by React during reconciliation, outside the component functions
modelled here; we model its text as empty.) -/
def jsChildText : Json → String
  | .null => ""
  | .bool _ => ""
  | .num n => toString n
  | .str s => s
  | .arr xs => jsChildTextList xs
  | .obj _ => ""

/-- Concatenated React child text of a list of children. -/
def jsChildTextList : List Json → String
  | [] => ""
  | x :: xs => jsChildText x ++ jsChildTextList xs

end

/-- JSON string-body escaping used by `stringifyJson`. -/
def escapeJsonChars : List Char → String
  | [] => ""
  | c :: cs =>
    (if c = '"' then "\\\""
     else if c = '\\' then "\\\\"
     else if c = '\n' then "\\n"
     else if c = '\t' then "\\t"
     else if c = '\r' then "\\r"
     else String.singleton c) ++ escapeJsonChars cs

mutual

/-- `JSON.stringify` on the modelled values (no spacing argument).
String escaping is modelled for quotes, backslashes and the common
control characters. -/
def stringifyJson : Json → String
  | .null => "null"
  | .bool true => "true"
  | .bool false => "false"
  | .num n => toString n
  | .str s => "\"" ++ escapeJsonChars s.data ++ "\""
  | .arr xs => "[" ++ stringifyElems xs ++ "]"
  | .obj fs => "\x7b" ++ stringifyFields fs ++ "\x7d"

/-- Comma-separated stringified array elements. -/
def stringifyElems : List Json → String
  | [] => ""
  | [x] => stringifyJson x
  | x :: xs => stringifyJson x ++ "," ++ stringifyElems xs

/-- Comma-separated stringified object members. -/
def stringifyFields : List (String × Json) → String
  | [] => ""
  | [p] => "\"" ++ escapeJsonChars p.1.data ++ "\":" ++ stringifyJson p.2
  | p :: ps =>
    "\"" ++ escapeJsonChars p.1.data ++ "\":" ++ stringifyJson p.2 ++ "," ++ stringifyFields ps

end

/-- Skip JSON whitespace. -/
def skipWs : List Char → List Char
  | c :: cs => if c = ' ' ∨ c = '\n' ∨ c = '\t' ∨ c = '\r' then skipWs cs else c :: cs
  | [] => []

/-- Parse the body of a JSON string literal (after the opening quote),
returning the decoded string and the input after the closing quote.
Escapes `\" \\ \/ \n \t \r \b \f` are decoded; `\uXXXX` escapes are not
modelled. -/
def parseStrChars (acc : String) : List Char → Option (String × List Char)
  | '"' :: rest => some (acc, rest)
  | '\\' :: e :: rest =>
    if e = '"' then parseStrChars (acc.push '"') rest
    else if e = '\\' then parseStrChars (acc.push '\\') rest
    else if e = '/' then parseStrChars (acc.push '/') rest
    else if e = 'n' then parseStrChars (acc.push '\n') rest
    else if e = 't' then parseStrChars (acc.push '\t') rest
    else if e = 'r' then parseStrChars (acc.push '\r') rest
    else if e = 'b' then parseStrChars (acc.push (Char.ofNat 8)) rest
    else if e = 'f' then parseStrChars (acc.push (Char.ofNat 12)) rest
    else none
  | c :: rest => if c.toNat < 32 then none else parseStrChars (acc.push c) rest
  | [] => none

/-- Consume a run of decimal digits, accumulating their value. -/
def takeDigits (acc : Nat) : List Char → Nat × List Char
  | c :: rest => if c.isDigit then takeDigits (acc * 10 + (c.toNat - 48)) rest else (acc, c :: rest)
  | [] => (acc, [])

/-- Parse one or more decimal digits as a natural number. -/
def parseNatDigits : List Char → Option (Nat × List Char)
  | c :: rest => if c.isDigit then some (takeDigits (c.toNat - 48) rest) else none
  | [] => none

/-- Parse a comma-separated sequence of values up to a closing `]`, given a
parser `pv` for one value; `fuel` bounds the number of elements. -/
def parseElems (pv : List Char → Option (Json × List Char)) :
    Nat → List Char → Option (List Json × List Char)
  | 0, _ => none
  | fuel + 1, cs =>
    match pv cs with
    | none => none
    | some (v, rest) =>
      match skipWs rest with
      | ',' :: r => (parseElems pv fuel r).map (fun p => (v :: p.1, p.2))
      | ']' :: r => some ([v], r)
      | _ => none

/-- Parse a comma-separated sequence of `"key": value` members up to a
closing brace, given a parser `pv` for one value. -/
def parseMembers (pv : List Char → Option (Json × List Char)) :
    Nat → List Char → Option (List (String × Json) × List Char)
  | 0, _ => none
  | fuel + 1, cs =>
    match skipWs cs with
    | '"' :: r =>
      match parseStrChars "" r with
      | none => none
      | some (k, r2) =>
        match skipWs r2 with
        | ':' :: r3 =>
          match pv r3 with
          | none => none
          | some (v, r4) =>
            match skipWs r4 with
            | ',' :: r5 => (parseMembers pv fuel r5).map (fun p => ((k, v) :: p.1, p.2))
            | '}' :: r5 => some ([(k, v)], r5)
            | _ => none
        | _ => none
    | _ => none

/-- Parse one JSON value (integers only for numbers), skipping leading
whitespace; `fuel` bounds the nesting depth. -/
def parseVal : Nat → List Char → Option (Json × List Char)
  | 0, _ => none
  | fuel + 1, cs =>
    match skipWs cs with
    | 'n' :: 'u' :: 'l' :: 'l' :: r => some (.null, r)
    | 't' :: 'r' :: 'u' :: 'e' :: r => some (.bool true, r)
    | 'f' :: 'a' :: 'l' :: 's' :: 'e' :: r => some (.bool false, r)
    | '"' :: r => (parseStrChars "" r).map (fun p => (.str p.1, p.2))
    | '[' :: r =>
      match skipWs r with
      | ']' :: rr => some (.arr [], rr)
      | cs2 => (parseElems (parseVal fuel) (cs2.length + 1) cs2).map (fun p => (.arr p.1, p.2))
    | '{' :: r =>
      match skipWs r with
      | '}' :: rr => some (.obj [], rr)
      | cs2 => (parseMembers (parseVal fuel) (cs2.length + 1) cs2).map (fun p => (.obj p.1, p.2))
    | '-' :: r => (parseNatDigits r).map (fun p => (.num (-(p.1 : Int)), p.2))
    | c :: r =>
      if c.isDigit then (parseNatDigits (c :: r)).map (fun p => (.num (p.1 : Int), p.2))
      else none
    | [] => none

/-- Model of `JSON.parse`: `none` means the string is rejected (in JS, a
thrown `SyntaxError`).  Trailing whitespace is allowed, trailing garbage is
not. -/
def parseJson (s : String) : Option Json :=
  match parseVal (s.length + 1) s.data with
  | some (v, rest) => if skipWs rest = [] then some v else none
  | none => none

/-- Replace every underscore with a space: `key.replace(/_/g, " ")`,
modelled character by character (the pattern and the replacement are one
character each). -/
def replaceUnderscores (s : String) : String :=
  String.mk (s.data.map (fun c => if c = '_' then ' ' else c))

/-- `s.toUpperCase()`, modelled as the character-wise upper-casing (the
keys involved are ASCII, where the two agree). -/
def jsToUpperCase (s : String) : String :=
  String.mk (s.data.map Char.toUpper)

/-- The body of one rendered section: a plain text block (`<p>{value}</p>`)
or a bullet list (`<ul>` of `<li>` texts). -/
inductive SBody where
  | textBlock : String → SBody
  | listItems : List String → SBody
deriving Repr

/-- One labeled section produced by the renderer (heading plus body). -/
structure RSection where
  label : String
  body : SBody
deriving Repr

/-- The renderer's result: a tree of sections, or the fixed
"Error rendering analysis" placeholder produced by the `catch` branch. -/
inductive RContent where
  | tree : List RSection → RContent
  | errorPlaceholder : RContent
deriving Repr

/-- `Object.entries(v)` as used on the parsed content: throws (modelled as
`Except.error`) on `null`/`undefined`; yields the members of an object, the
indexed elements of an array, and the indexed characters of a boxed string;
yields nothing for numbers and booleans. -/
def objectEntries : Json → Except Unit (List (String × Json))
  | .null => .error ()
  | .obj fs => .ok fs
  | .arr xs => .ok (xs.enum.map (fun p => (toString p.1, p.2)))
  | .str s => .ok (s.data.enum.map (fun p => (toString p.1, Json.str (String.singleton p.2))))
  | .bool _ => .ok []
  | .num _ => .ok []

/-- The text rendered for a sub-value inside a nested object:
`typeof subValue === "object" ? JSON.stringify(subValue) : subValue`. -/
def subValueText (sv : Json) : String :=
  if typeofIsObject sv then stringifyJson sv else jsChildText sv

/-- The body rendered for one section's value:
`typeof value === "object"` and an array gives a list of item texts;
`typeof value === "object"` otherwise calls `Object.entries(value)` — which
throws on `null` — and gives a list of "key: value" lines; a non-object
value gives a plain text block. -/
def renderValue : Json → Except Unit SBody
  | .arr xs => .ok (.listItems (xs.map jsChildText))
  | .null => .error ()
  | .obj fs =>
    .ok (.listItems (fs.map (fun p => replaceUnderscores p.1 ++ ": " ++ subValueText p.2)))
  | v => .ok (.textBlock (jsChildText v))

/-- Map the top-level entries to labeled sections; the first value that
throws (a `null` top-level value) aborts the whole map, as in JS. -/
def renderSections : List (String × Json) → Except Unit (List RSection)
  | [] => .ok []
  | p :: rest => do
    let b ← renderValue p.2
    let tail ← renderSections rest
    .ok ({ label := jsToUpperCase (replaceUnderscores p.1), body := b } :: tail)

/-- The body of the renderer's `try` block: parse the content if it is a
string, then render one labeled section per top-level entry; an `error`
is a throw. -/
def renderBody (content : Json) : Except Unit (List RSection) := do
  let parsed ←
    match content with
    | .str s =>
      match parseJson s with
      | some v => Except.ok v
      | none => Except.error ()
    | v => Except.ok v
  let entries ← objectEntries parsed
  renderSections entries

/-- `renderAnalysisContent` from both variants (they differ only in CSS):
run the `try` block; any throw inside it (a `JSON.parse` failure, or
`Object.entries` on `null`) is caught and yields the fixed
"Error rendering analysis" placeholder. -/
def renderAnalysisContent (content : Json) : RContent :=
  match renderBody content with
  | .ok secs => .tree secs
  | .error _ => .errorPlaceholder

/-- A network request issued through `fetch`.  A request is recorded even
when the transport subsequently fails: the call was made. -/
inductive Request where
  | analyzeSingle : Nat → Request
  | upload : Request
  | analyzeById : String → Request
deriving DecidableEq, Repr

/-- Per-pass analysis store of variant A: the object
`\x7b first_pass, second_pass, third_pass \x7d`, each initially `null`. -/
structure AnalysisA where
  first_pass : Json
  second_pass : Json
  third_pass : Json

/-- Component state of variant A (`src/frontend/app/page.js`), plus a log
of the `console.error` diagnostics the handlers emit (the `console.log`
debug output is not modelled). -/
structure StateA where
  file : Option Unit
  analysis : AnalysisA
  loading : Bool
  currentPass : Nat
  errlog : List String

/-- The transport outcome of one variant-A analysis fetch: the parsed
response body.  `analysis` is `data.analysis`, `Json.null` when the field
is absent or null. -/
structure AnalyzeRespA where
  analysis : Json

/-- `handleFileUpload` of variant A: store the chosen file, reset all three
pass results to `null` and the current pass to 1. -/
def handleFileUploadA (f : Option Unit) (s : StateA) : StateA :=
  { s with
    file := f
    analysis := { first_pass := .null, second_pass := .null, third_pass := .null }
    currentPass := 1 }

/-- `analyzePaper` of variant A: return at once when no file is selected;
otherwise set `loading`, POST the file to
`/analyze/paper?pass_number=\x7bpassNumber\x7d`, and on success store
`data.analysis` under the pass's key (the other two keys are kept) and make
`passNumber` the current pass; on failure log to the console; `finally`
clear `loading`.  `resp = none` is a network error or a `response.json()`
failure. -/
def analyzePaperA (passNumber : Nat) (resp : Option AnalyzeRespA) (s : StateA) :
    StateA × List Request :=
  if s.file.isSome then
    match resp with
    | none =>
      ({ s with loading := false, errlog := s.errlog ++ ["Error analyzing paper:"] },
       [Request.analyzeSingle passNumber])
    | some r =>
      ({ s with
          analysis :=
            { first_pass := if passNumber = 1 then r.analysis else s.analysis.first_pass
              second_pass := if passNumber = 2 then r.analysis else s.analysis.second_pass
              third_pass := if passNumber = 3 then r.analysis else s.analysis.third_pass }
          currentPass := passNumber
          loading := false },
       [Request.analyzeSingle passNumber])
  else (s, [])

/-- The stored result variant A keeps for pass `n` (`null` for a pass
number without a key). -/
def getPassA (n : Nat) (a : AnalysisA) : Json :=
  match n with
  | 1 => a.first_pass
  | 2 => a.second_pass
  | 3 => a.third_pass
  | _ => .null

/-- Whether pass `n`'s result counts as stored in variant A — the JS
truthiness test the component itself applies (`analysis.first_pass && …`,
`!analysis.first_pass`). -/
def storedA (n : Nat) (s : StateA) : Bool :=
  jsTruthy (getPassA n s.analysis)

/-- The `disabled` prop of variant A's pass button `n`:
`!file || loading` for pass 1, with `!analysis.first_pass` respectively
`!analysis.second_pass` added for passes 2 and 3.  A pass number without a
button is treated as disabled. -/
def disabledA (n : Nat) (s : StateA) : Bool :=
  match n with
  | 1 => !s.file.isSome || s.loading
  | 2 => !s.file.isSome || !jsTruthy s.analysis.first_pass || s.loading
  | 3 => !s.file.isSome || !jsTruthy s.analysis.second_pass || s.loading
  | _ => true

/-- Variant A's pass trigger `n` is enabled iff its `disabled` prop is
false. -/
def enabledA (n : Nat) (s : StateA) : Bool :=
  !disabledA n s

/-- Clicking variant A's pass button `n`: a disabled button does nothing;
an enabled one runs its `onClick`, which displays the pass when its result
is already stored (`setCurrentPass(n)`) and calls `analyzePaper(n)`
otherwise. -/
def clickPassA (n : Nat) (resp : Option AnalyzeRespA) (s : StateA) : StateA × List Request :=
  if enabledA n s then
    match n with
    | 1 =>
      if jsTruthy s.analysis.first_pass then ({ s with currentPass := 1 }, [])
      else analyzePaperA 1 resp s
    | 2 =>
      if jsTruthy s.analysis.second_pass then ({ s with currentPass := 2 }, [])
      else analyzePaperA 2 resp s
    | 3 =>
      if jsTruthy s.analysis.third_pass then ({ s with currentPass := 3 }, [])
      else analyzePaperA 3 resp s
    | _ => (s, [])
  else (s, [])

/-- A user-level operation on variant A: choosing a file, or clicking a
pass button (with the transport outcome the fetch would see). -/
inductive OpA where
  | selectFile : Option Unit → OpA
  | click : Nat → Option AnalyzeRespA → OpA

/-- One user-level step of variant A. -/
def stepA (op : OpA) (s : StateA) : StateA × List Request :=
  match op with
  | .selectFile f => (handleFileUploadA f s, [])
  | .click n resp => clickPassA n resp s

/-- Per-pass analysis store of variant B: the keys `pass_1`, `pass_2`,
`pass_3` written by `setAnalysis` and read by the buttons and the result
panel, each absent (`null`) initially.  (The object literal also carries
vestigial `first_pass`/`second_pass`/`third_pass` keys that no code ever
reads; they are not modelled.) -/
structure AnalysisB where
  pass_1 : Json
  pass_2 : Json
  pass_3 : Json

/-- Component state of variant B (`src/unnamed/part_000`), plus the
`console.error` log. -/
structure StateB where
  file : Option Unit
  documentId : Option String
  analysis : AnalysisB
  images : Json
  loading : Bool
  currentPass : Nat
  metadata : Json
  errlog : List String

/-- The parsed body of a variant-B upload response: `data.document_id`
(`none` when absent or null) and `data.metadata`. -/
structure UploadResp where
  document_id : Option String
  metadata : Json

/-- The parsed body of a variant-B analysis response: `data.analysis` and
`data.images` (`Json.null` when a field is absent or null). -/
structure AnalyzeRespB where
  analysis : Json
  images : Json

/-- `handleFileUpload` of variant B: store the chosen file and clear the
pass results, the image list, the document id, the metadata, and reset the
current pass to 1. -/
def handleFileUploadB (f : Option Unit) (s : StateB) : StateB :=
  { s with
    file := f
    analysis := { pass_1 := .null, pass_2 := .null, pass_3 := .null }
    images := .arr []
    documentId := none
    currentPass := 1
    metadata := .null }

/-- `uploadDocument` of variant B: return `undefined` at once when no file
is selected; otherwise set `loading`, POST the file to `/upload/paper`, on
success store `data.document_id` and `data.metadata` and return the id, on
failure log to the console and return `undefined`; `finally` clear
`loading`.  The third component is the JS return value. -/
def uploadDocument (resp : Option UploadResp) (s : StateB) :
    StateB × List Request × Option String :=
  if s.file.isSome then
    match resp with
    | none =>
      ({ s with loading := false, errlog := s.errlog ++ ["Error uploading document:"] },
       [Request.upload], none)
    | some r =>
      ({ s with documentId := r.document_id, metadata := r.metadata, loading := false },
       [Request.upload], r.document_id)
  else (s, [], none)

/-- The string a JS template literal interpolates for the captured
`documentId`: the id itself, or `"null"` for a missing one.  (A state
holding JS `undefined` rather than `null` would interpolate as
`"undefined"`; the two falsy cases are conflated here and never both
exercised.) -/
def docIdInterp : Option String → String
  | none => "null"
  | some d => d

/-- The URL of variant B's analysis fetch, built from the `documentId`
variable captured by the handler's closure. -/
def analyzeUrlB (capturedDocId : Option String) (passNumber : Nat) : String :=
  "http://localhost:8000/analyze/paper/" ++ docIdInterp capturedDocId ++
    "?pass_number=" ++ toString passNumber

/-- `setAnalysis((prev) => (\x7b ...prev, [`pass_$\x7bpassNumber\x7d`]:
value \x7d))`: spread the previous store and overwrite the one computed
key.  The three pass buttons only ever supply 1, 2 or 3; any other number
would write a key no code reads, modelled as a no-op. -/
def setPassB (passNumber : Nat) (v : Json) (a : AnalysisB) : AnalysisB :=
  match passNumber with
  | 1 => { a with pass_1 := v }
  | 2 => { a with pass_2 := v }
  | 3 => { a with pass_3 := v }
  | _ => a

/-- The analysis phase of variant B's `analyzePaper`: set `loading`, POST
to `analyzeUrlB capturedDocId passNumber` — note the URL uses the
closure-captured `documentId`, not the id an upload just returned — and on
success store `data.analysis` under the pass's key, replace the image list
when `data.images` is truthy, and make `passNumber` current; on failure
log to the console; `finally` clear `loading`. -/
def analyzePhaseB (capturedDocId : Option String) (passNumber : Nat)
    (resp : Option AnalyzeRespB) (s : StateB) : StateB × List Request :=
  match resp with
  | none =>
    ({ s with loading := false, errlog := s.errlog ++ ["Error analyzing paper:"] },
     [Request.analyzeById (analyzeUrlB capturedDocId passNumber)])
  | some r =>
    ({ s with
        analysis := setPassB passNumber r.analysis s.analysis
        images := if jsTruthy r.images then r.images else s.images
        currentPass := passNumber
        loading := false },
     [Request.analyzeById (analyzeUrlB capturedDocId passNumber)])

/-- `analyzePaper` of variant B: when no truthy `documentId` is stored and
a file is selected, first run `uploadDocument` and abort if it does not
return a truthy id; then run the analysis fetch.  The closure variable
`documentId` is captured from the render that installed the handler, so
the analysis URL still uses the pre-upload value even directly after a
successful upload. -/
def analyzePaperB (passNumber : Nat) (upResp : Option UploadResp)
    (anaResp : Option AnalyzeRespB) (s : StateB) : StateB × List Request :=
  let capturedDocId := s.documentId
  if !jsTruthyStr s.documentId && s.file.isSome then
    let u := uploadDocument upResp s
    if jsTruthyStr u.2.2 then
      let a := analyzePhaseB capturedDocId passNumber anaResp u.1
      (a.1, u.2.1 ++ a.2)
    else (u.1, u.2.1)
  else analyzePhaseB capturedDocId passNumber anaResp s

/-- The stored result variant B keeps for pass `n`. -/
def getPassB (n : Nat) (a : AnalysisB) : Json :=
  match n with
  | 1 => a.pass_1
  | 2 => a.pass_2
  | 3 => a.pass_3
  | _ => .null

/-- Whether pass `n`'s result counts as stored in variant B (JS
truthiness, as the component's own `!analysis.pass_1` tests use). -/
def storedB (n : Nat) (s : StateB) : Bool :=
  jsTruthy (getPassB n s.analysis)

/-- The `disabled` prop of variant B's pass button `n`:
`!file || loading` for pass 1, with `!analysis.pass_1` respectively
`!analysis.pass_2` added for passes 2 and 3. -/
def disabledB (n : Nat) (s : StateB) : Bool :=
  match n with
  | 1 => !s.file.isSome || s.loading
  | 2 => !s.file.isSome || !jsTruthy s.analysis.pass_1 || s.loading
  | 3 => !s.file.isSome || !jsTruthy s.analysis.pass_2 || s.loading
  | _ => true

/-- Variant B's pass trigger `n` is enabled iff its `disabled` prop is
false. -/
def enabledB (n : Nat) (s : StateB) : Bool :=
  !disabledB n s

/-- Clicking variant B's pass button `n`: a disabled button does nothing;
an enabled one calls `analyzePaper(n)` unconditionally — unlike variant A
there is no stored-result check in the `onClick`. -/
def clickPassB (n : Nat) (upResp : Option UploadResp) (anaResp : Option AnalyzeRespB)
    (s : StateB) : StateB × List Request :=
  if enabledB n s then
    match n with
    | 1 => analyzePaperB 1 upResp anaResp s
    | 2 => analyzePaperB 2 upResp anaResp s
    | 3 => analyzePaperB 3 upResp anaResp s
    | _ => (s, [])
  else (s, [])

/-- A user-level operation on variant B. -/
inductive OpB where
  | selectFile : Option Unit → OpB
  | click : Nat → Option UploadResp → Option AnalyzeRespB → OpB

/-- One user-level step of variant B. -/
def stepB (op : OpB) (s : StateB) : StateB × List Request :=
  match op with
  | .selectFile f => (handleFileUploadB f s, [])
  | .click n u a => clickPassB n u a s

/-- An initial variant-B state: no file, nothing stored. -/
def initStateB : StateB :=
  { file := none, documentId := none,
    analysis := { pass_1 := .null, pass_2 := .null, pass_3 := .null },
    images := .arr [], loading := false, currentPass := 1, metadata := .null,
    errlog := [] }

/-- C3: selecting a new file, in either variant, clears all three passes'
stored analysis results (to `null`), the image list, the metadata and the
document identifier, resets the displayed pass to 1, stores the chosen
file and leaves every remaining component of the prior state (the loading
flag, the console log) unchanged — for every prior state. -/
theorem select_file_clears_everything :
    (∀ (s : StateB) (f : Option Unit),
      handleFileUploadB f s =
        { s with
          file := f
          analysis := { pass_1 := .null, pass_2 := .null, pass_3 := .null }
          images := .arr []
          documentId := none
          currentPass := 1
          metadata := .null })
    ∧ (∀ (s : StateA) (f : Option Unit),
      handleFileUploadA f s =
        { s with
          file := f
          analysis := { first_pass := .null, second_pass := .null, third_pass := .null }
          currentPass := 1 }) :=
  ⟨fun _ _ => rfl, fun _ _ => rfl⟩

/-- C10: in the single-request variant, `analyzePaper` with no file
selected returns before doing anything: no request is issued and the state
is returned unchanged. -/
theorem analyze_without_file_is_noop (s : StateA) (n : Nat) (resp : Option AnalyzeRespA)
    (h : s.file = none) : analyzePaperA n resp s = (s, []) := by
  simp [analyzePaperA, h]

/-- A variant-A state with no file selected, for the C10 witness. -/
def noFileStateA : StateA :=
  { file := none,
    analysis := { first_pass := .null, second_pass := .null, third_pass := .null },
    loading := false, currentPass := 1, errlog := [] }

/-- C10 witness: the no-file guard at a concrete state. -/
theorem analyze_without_file_is_noop_witness :
    analyzePaperA 1 none noFileStateA = (noFileStateA, []) :=
  analyze_without_file_is_noop noFileStateA 1 none rfl

/-- The fresh two-phase state of the C2 trace: a file is selected, no
document id is stored yet. -/
def c2StartState : StateB := { initStateB with file := some () }

/-- The upload response of the C2 trace: the backend assigns id "abc". -/
def c2UploadResp : UploadResp := { document_id := some "abc", metadata := .obj [] }

/-- C2 (the code's actual behavior at the claim's scenario): triggering a
pass with a file selected and no stored document id performs the upload
first — and then issues the analyze request to
`/analyze/paper/null?pass_number=1`, because the fetch URL interpolates
the closure-captured `documentId` (still `null`), not the id `"abc"` the
upload just returned, even though that id was stored into state. -/
theorem analyze_url_uses_stale_document_id :
    (analyzePaperB 1 (some c2UploadResp)
        (some { analysis := .obj [], images := .null }) c2StartState).2 =
      [Request.upload,
       Request.analyzeById "http://localhost:8000/analyze/paper/null?pass_number=1"]
    ∧ ((analyzePaperB 1 (some c2UploadResp)
        (some { analysis := .obj [], images := .null }) c2StartState).1).documentId =
      some "abc" :=
  ⟨rfl, rfl⟩

/-- C7: a failed analysis fetch (network error or malformed JSON body —
both land in the same `catch`) leaves the stored pass results and the
current pass unchanged, clears the loading flag, appends a diagnostic to
the developer console, and surfaces nothing else to the user.  Stated for
variant A, and for variant B on both paths that issue the analyze fetch:
the no-upload path (the upload guard is false — in particular whenever a
truthy document id is already stored), and the upload-first path of a
fresh document, where additionally only the upload's own
document-id/metadata writes remain. -/
theorem failed_analysis_only_clears_loading_and_logs :
    (∀ (s : StateA) (n : Nat), s.file.isSome = true →
      analyzePaperA n none s =
        ({ s with loading := false, errlog := s.errlog ++ ["Error analyzing paper:"] },
         [Request.analyzeSingle n]))
    ∧ (∀ (t : StateB) (n : Nat) (upResp : Option UploadResp),
      (!jsTruthyStr t.documentId && t.file.isSome) = false →
      analyzePaperB n upResp none t =
        ({ t with loading := false, errlog := t.errlog ++ ["Error analyzing paper:"] },
         [Request.analyzeById (analyzeUrlB t.documentId n)]))
    ∧ (∀ (t : StateB) (n : Nat) (r : UploadResp),
      (!jsTruthyStr t.documentId && t.file.isSome) = true →
      jsTruthyStr r.document_id = true →
      analyzePaperB n (some r) none t =
        ({ t with
            documentId := r.document_id
            metadata := r.metadata
            loading := false
            errlog := t.errlog ++ ["Error analyzing paper:"] },
         [Request.upload, Request.analyzeById (analyzeUrlB t.documentId n)])) := by
  refine ⟨fun s n h => ?_, fun t n upResp hg => ?_, fun t n r hg hid => ?_⟩
  · simp [analyzePaperA, h]
  · simp [analyzePaperB, hg, analyzePhaseB]
  · have h2 := hg
    simp only [Bool.and_eq_true, Bool.not_eq_true'] at h2
    simp [analyzePaperB, hg, uploadDocument, h2.1, h2.2, hid, analyzePhaseB]

/-- A fresh variant-B state — file selected, no document id stored yet —
for the C7 witness. -/
def c7FreshStateB : StateB := { initStateB with file := some () }

/-- C7 witness: on a fresh document (upload performed first), a failed
pass-1 analyze fetch at a concrete state leaves the pass results and the
current pass unchanged and only stores the upload's id and metadata,
clears the loading flag and logs. -/
theorem failed_analysis_witness :
    analyzePaperB 1 (some { document_id := some "abc", metadata := .obj [] })
        none c7FreshStateB =
      ({ c7FreshStateB with
          documentId := some "abc"
          metadata := .obj []
          loading := false
          errlog := c7FreshStateB.errlog ++ ["Error analyzing paper:"] },
       [Request.upload, Request.analyzeById (analyzeUrlB c7FreshStateB.documentId 1)]) :=
  failed_analysis_only_clears_loading_and_logs.2.2 c7FreshStateB 1
    { document_id := some "abc", metadata := .obj [] } rfl rfl

/-- C9: in the two-phase variant, every successful analysis response that
carries an images list replaces the stored list with it, whatever was
stored before — both on the no-upload path (the upload guard is false, in
particular whenever a truthy document id is already stored) and on the
upload-first path of a fresh document.  (The field is optional: when a
response carries no images value the code keeps the previous list, so the
claim quantifies over responses that do carry one.) -/
theorem images_replaced_on_success :
    (∀ (t : StateB) (n : Nat) (upResp : Option UploadResp) (a : Json) (imgs : List Json),
      (!jsTruthyStr t.documentId && t.file.isSome) = false →
      ((analyzePaperB n upResp (some { analysis := a, images := .arr imgs }) t).1).images =
        .arr imgs)
    ∧ (∀ (t : StateB) (n : Nat) (r : UploadResp) (a : Json) (imgs : List Json),
      (!jsTruthyStr t.documentId && t.file.isSome) = true →
      jsTruthyStr r.document_id = true →
      ((analyzePaperB n (some r) (some { analysis := a, images := .arr imgs }) t).1).images =
        .arr imgs) := by
  refine ⟨fun t n upResp a imgs hg => ?_, fun t n r a imgs hg hid => ?_⟩
  · simp [analyzePaperB, hg, analyzePhaseB, jsTruthy]
  · have h2 := hg
    simp only [Bool.and_eq_true, Bool.not_eq_true'] at h2
    simp [analyzePaperB, hg, uploadDocument, h2.1, h2.2, hid, analyzePhaseB, jsTruthy]

/-- A fresh variant-B state with a non-empty prior image list, for the C9
witness. -/
def c9FreshStateB : StateB :=
  { initStateB with file := some (), images := .arr [.str "old"] }

/-- C9 witness: on a fresh document (upload performed first), a successful
pass-1 response with a one-image list replaces the stored list at a
concrete state. -/
theorem images_replaced_witness :
    ((analyzePaperB 1 (some { document_id := some "doc9", metadata := .null })
        (some { analysis := .obj [], images := .arr [.obj [("image", .str "new")]] })
        c9FreshStateB).1).images = .arr [.obj [("image", .str "new")]] :=
  images_replaced_on_success.2 c9FreshStateB 1
    { document_id := some "doc9", metadata := .null } (.obj [])
    [.obj [("image", .str "new")]] rfl rfl

/-- C4: the renderer is total — for every input it returns either a
rendered tree or the fixed "Error rendering analysis" placeholder (every
throw inside the `try` block is modelled as an `Except.error` and caught);
and for every string input that fails to parse as JSON it returns the
placeholder. -/
theorem renderer_never_throws :
    (∀ c : Json,
      renderAnalysisContent c = .errorPlaceholder ∨
        ∃ secs, renderAnalysisContent c = .tree secs)
    ∧ (∀ s : String, parseJson s = none →
      renderAnalysisContent (.str s) = .errorPlaceholder) := by
  constructor
  · intro c
    cases hb : renderBody c with
    | ok secs => exact Or.inr ⟨secs, by simp [renderAnalysisContent, hb]⟩
    | error e => exact Or.inl (by simp [renderAnalysisContent, hb])
  · intro s h
    simp only [renderAnalysisContent, renderBody, h]
    rfl

/-- C4 witness: a concrete malformed string yields the placeholder. -/
theorem renderer_never_throws_witness :
    renderAnalysisContent (.str "not json") = .errorPlaceholder :=
  renderer_never_throws.2 "not json" rfl

/-- Spec-side description of one rendered section body, following the
claim's wording: an array value becomes a list of its item texts, a
nested-object value becomes "key: value" lines with deeper objects
stringified, and a scalar value becomes a plain text block.  The claim
assigns no rendering to a top-level `null` value (the code throws there,
and the section theorem excludes it by hypothesis); `null` is mapped to an
empty text block. -/
def specSectionBody : Json → SBody
  | .arr xs => .listItems (xs.map jsChildText)
  | .obj fs =>
    .listItems (fs.map (fun p => replaceUnderscores p.1 ++ ": " ++ subValueText p.2))
  | .null => .textBlock ""
  | v => .textBlock (jsChildText v)

/-- On every non-null value the code's section body agrees with the spec's
description of it. -/
theorem renderValue_eq_spec (v : Json) (h : v ≠ .null) :
    renderValue v = .ok (specSectionBody v) := by
  cases v <;> first | rfl | exact absurd rfl h

/-- When no top-level value is null, the section list succeeds and maps
each entry to its spec-described section. -/
theorem renderSections_eq_spec (fields : List (String × Json))
    (h : ∀ p ∈ fields, p.2 ≠ Json.null) :
    renderSections fields =
      .ok (fields.map (fun p =>
        { label := jsToUpperCase (replaceUnderscores p.1), body := specSectionBody p.2 })) := by
  induction fields with
  | nil => rfl
  | cons p rest ih =>
    have hp : p.2 ≠ Json.null := h p (List.mem_cons_self p rest)
    have hr := ih (fun q hq => h q (List.mem_cons_of_mem p hq))
    simp only [renderSections, renderValue_eq_spec p.2 hp, hr, List.map_cons]
    rfl

/-- C8: for every object input whose top-level values are renderable (not
null — a null top-level value makes the whole renderer fall back to the
placeholder), the renderer emits one labeled section per top-level key in
entry order, with the label derived from the key by replacing underscores
with spaces and upper-casing, and the body as described by
`specSectionBody`; in particular, the object
a ↦ 1, b ↦ [x, y], c ↦ (d ↦ 2) yields sections A (text "1"),
B (list "x", "y") and C (list "d: 2"). -/
theorem renderer_object_sections :
    (∀ fields : List (String × Json), (∀ p ∈ fields, p.2 ≠ Json.null) →
      renderAnalysisContent (.obj fields) =
        .tree (fields.map (fun p =>
          { label := jsToUpperCase (replaceUnderscores p.1), body := specSectionBody p.2 })))
    ∧ renderAnalysisContent
        (.obj [("a", .num 1), ("b", .arr [.str "x", .str "y"]),
               ("c", .obj [("d", .num 2)])]) =
      .tree [{ label := "A", body := .textBlock "1" },
             { label := "B", body := .listItems ["x", "y"] },
             { label := "C", body := .listItems ["d: 2"] }] := by
  constructor
  · intro fields h
    show (match renderSections fields with
          | Except.ok secs => RContent.tree secs
          | Except.error _ => RContent.errorPlaceholder) = _
    rw [renderSections_eq_spec fields h]
  · rfl

/-- C8 witness: the general section theorem applied at the concrete
three-key object. -/
theorem renderer_object_sections_witness :
    renderAnalysisContent
        (.obj [("a", .num 1), ("b", .arr [.str "x", .str "y"]),
               ("c", .obj [("d", .num 2)])]) =
      .tree (([(("a" : String), Json.num 1), ("b", Json.arr [Json.str "x", Json.str "y"]),
               ("c", Json.obj [("d", Json.num 2)])]).map (fun p =>
          { label := jsToUpperCase (replaceUnderscores p.1), body := specSectionBody p.2 })) :=
  renderer_object_sections.1 _
    (by intro p hp; simp at hp; rcases hp with rfl | rfl | rfl <;> exact fun hh => Json.noConfusion hh)

/-- C6: in both variants, for every state (reachable or not), pass `n`'s
trigger is enabled exactly when a file is present, no request is pending
(`loading` is false), and either `n = 1` or pass `n - 1`'s result is
stored — a direct reading of the buttons' `disabled` props. -/
theorem pass_trigger_enabled_iff (n : Nat) (hn : n = 1 ∨ n = 2 ∨ n = 3) :
    (∀ s : StateA, enabledA n s = true ↔
      (s.file.isSome = true ∧ s.loading = false ∧ (n = 1 ∨ storedA (n - 1) s = true)))
    ∧ (∀ t : StateB, enabledB n t = true ↔
      (t.file.isSome = true ∧ t.loading = false ∧ (n = 1 ∨ storedB (n - 1) t = true))) := by
  rcases hn with rfl | rfl | rfl <;>
    refine ⟨fun s => ?_, fun t => ?_⟩ <;>
      simp [enabledA, disabledA, enabledB, disabledB, storedA, storedB,
        getPassA, getPassB] <;>
      tauto

/-- A variant-A state for the C6 witness: file present, pass 1 stored. -/
def c6StateA : StateA :=
  { file := some (),
    analysis := { first_pass := .str "p1", second_pass := .null, third_pass := .null },
    loading := false, currentPass := 1, errlog := [] }

/-- C6 witness: the enablement rule instantiated for pass 2 at a concrete
state. -/
theorem pass_trigger_enabled_witness :
    enabledA 2 c6StateA = true ↔
      (c6StateA.file.isSome = true ∧ c6StateA.loading = false ∧
        (2 = 1 ∨ storedA (2 - 1) c6StateA = true)) :=
  (pass_trigger_enabled_iff 2 (Or.inr (Or.inl rfl))).1 c6StateA

/-- A variant-B state whose pass 1 is already stored (fulfilled), for the
C1 counterexample. -/
def c1StoredStateB : StateB :=
  { initStateB with
    file := some ()
    documentId := some "abc"
    analysis := { pass_1 := .str "done", pass_2 := .null, pass_3 := .null } }

/-- C1 counterexample: in the two-phase variant the pass buttons call
`analyzePaper` unconditionally, so clicking pass 1's control while its
result is already stored issues a network request — the transport call
count grows by 1 instead of staying the same. -/
theorem stored_click_refetches_in_two_phase :
    storedB 1 c1StoredStateB = true ∧
    ((clickPassB 1 none none c1StoredStateB).2).length = 1 :=
  ⟨rfl, rfl⟩

/-- C1 (amended): in the single-request variant, activating an
already-stored pass's enabled control issues no request and only moves the
current-pass pointer to it; in the two-phase variant the control re-issues
the analyze request (exactly one fetch when a truthy document id is
stored). -/
theorem stored_click_only_displays_in_single_request :
    (∀ (s : StateA) (n : Nat) (resp : Option AnalyzeRespA),
      (n = 1 ∨ n = 2 ∨ n = 3) → storedA n s = true → enabledA n s = true →
      clickPassA n resp s = ({ s with currentPass := n }, []))
    ∧ (∀ (t : StateB) (n : Nat) (upResp : Option UploadResp)
        (anaResp : Option AnalyzeRespB),
      (n = 1 ∨ n = 2 ∨ n = 3) → enabledB n t = true →
      jsTruthyStr t.documentId = true →
      ((clickPassB n upResp anaResp t).2).length = 1) := by
  constructor
  · rintro s n resp (rfl | rfl | rfl) hst hen
    all_goals
      simp only [storedA, getPassA] at hst
      simp [clickPassA, hen, hst]
  · rintro t n upResp anaResp (rfl | rfl | rfl) hen hdoc
    all_goals
      cases anaResp <;>
        simp [clickPassB, hen, analyzePaperB, hdoc, analyzePhaseB]

/-- A variant-A state with pass 1 stored and pass 2 displayed, for the C1
witness. -/
def c1WStateA : StateA :=
  { file := some (),
    analysis := { first_pass := .str "done", second_pass := .str "also", third_pass := .null },
    loading := false, currentPass := 2, errlog := [] }

/-- C1 witness: clicking stored pass 1 at a concrete single-request state
issues nothing and only sets the current pass to 1. -/
theorem stored_click_only_displays_witness :
    clickPassA 1 none c1WStateA = ({ c1WStateA with currentPass := 1 }, []) :=
  stored_click_only_displays_in_single_request.1 c1WStateA 1 none (Or.inl rfl) rfl rfl

/-- Writing pass `m`'s key leaves every other pass's entry unchanged. -/
theorem getPassB_setPassB_ne (n m : Nat) (v : Json) (a : AnalysisB) (h : n ≠ m) :
    getPassB n (setPassB m v a) = getPassB n a := by
  rcases n with _ | _ | _ | _ | n <;> rcases m with _ | _ | _ | _ | m <;>
    first
      | rfl
      | exact absurd rfl h

/-- `uploadDocument` never touches the analysis store. -/
theorem uploadDocument_analysis (resp : Option UploadResp) (s : StateB) :
    ((uploadDocument resp s).1).analysis = s.analysis := by
  by_cases h : s.file.isSome = true <;> cases resp <;> simp [uploadDocument, h]

/-- Frame lemma for variant A: an analysis call for pass `m` leaves every
other pass's stored entry untouched (whatever the transport outcome). -/
theorem analyzePaperA_getPass_ne (s : StateA) (m n : Nat) (resp : Option AnalyzeRespA)
    (h : n ≠ m) :
    getPassA n ((analyzePaperA m resp s).1).analysis = getPassA n s.analysis := by
  by_cases hf : s.file.isSome = true
  · cases resp with
    | none => simp [analyzePaperA, hf]
    | some r =>
      simp only [analyzePaperA, hf, if_true]
      rcases n with _ | _ | _ | _ | n
      · rfl
      · show (if m = 1 then r.analysis else s.analysis.first_pass) = s.analysis.first_pass
        rw [if_neg (fun hh => h hh.symm)]
      · show (if m = 2 then r.analysis else s.analysis.second_pass) = s.analysis.second_pass
        rw [if_neg (fun hh => h hh.symm)]
      · show (if m = 3 then r.analysis else s.analysis.third_pass) = s.analysis.third_pass
        rw [if_neg (fun hh => h hh.symm)]
      · rfl
  · simp [analyzePaperA, hf]

/-- Frame lemma for variant B: an analysis call for pass `m` — including a
preceding upload, when one happens — leaves every other pass's stored
entry untouched. -/
theorem analyzePaperB_getPass_ne (t : StateB) (m n : Nat) (u : Option UploadResp)
    (a : Option AnalyzeRespB) (h : n ≠ m) :
    getPassB n ((analyzePaperB m u a t).1).analysis = getPassB n t.analysis := by
  have hup := uploadDocument_analysis u t
  by_cases hg : (!jsTruthyStr t.documentId && t.file.isSome) = true <;>
    by_cases hid : jsTruthyStr (uploadDocument u t).2.2 = true <;>
      cases a <;>
        simp [analyzePaperB, hg, hid, analyzePhaseB, hup, getPassB_setPassB_ne n m _ _ h]

/-- Preservation through variant A's `analyzePaper`: a stored pass `n`
survives an analysis call for a pass `m` that is not itself stored. -/
theorem analyzePaperA_preserves (s : StateA) (m n : Nat) (resp : Option AnalyzeRespA)
    (h : storedA n s = true) (hm : storedA m s = false) :
    storedA n (analyzePaperA m resp s).1 = true := by
  have hnm : n ≠ m := fun e => by rw [e, hm] at h; exact Bool.noConfusion h
  show jsTruthy (getPassA n ((analyzePaperA m resp s).1).analysis) = true
  rw [analyzePaperA_getPass_ne s m n resp hnm]
  exact h

/-- In variant A, no button click can remove a stored pass result: a click
on a stored pass only moves the current-pass pointer, and a click on an
unstored pass can only write that pass's own key. -/
theorem clickPassA_preserves_stored (s : StateA) (m n : Nat) (resp : Option AnalyzeRespA)
    (h : storedA n s = true) : storedA n (clickPassA m resp s).1 = true := by
  unfold clickPassA
  by_cases he : enabledA m s = true
  · simp only [he, if_true]
    rcases m with _ | _ | _ | _ | m
    · exact h
    · by_cases hb : jsTruthy s.analysis.first_pass = true
      · simp only [hb, if_true]
        exact h
      · simp only [Bool.not_eq_true] at hb
        simp only [hb, Bool.false_eq_true, if_false]
        exact analyzePaperA_preserves s 1 n resp h hb
    · by_cases hb : jsTruthy s.analysis.second_pass = true
      · simp only [hb, if_true]
        exact h
      · simp only [Bool.not_eq_true] at hb
        simp only [hb, Bool.false_eq_true, if_false]
        exact analyzePaperA_preserves s 2 n resp h hb
    · by_cases hb : jsTruthy s.analysis.third_pass = true
      · simp only [hb, if_true]
        exact h
      · simp only [Bool.not_eq_true] at hb
        simp only [hb, Bool.false_eq_true, if_false]
        exact analyzePaperA_preserves s 3 n resp h hb
    · exact h
  · simp only [Bool.not_eq_true] at he
    simp only [he, Bool.false_eq_true, if_false]
    exact h

/-- In variant B, a button click either preserves a stored pass result or
is a click on that very pass. -/
theorem clickPassB_preserves_or_same (t : StateB) (m n : Nat) (u : Option UploadResp)
    (a : Option AnalyzeRespB) (h : storedB n t = true) :
    storedB n (clickPassB m u a t).1 = true ∨ n = m := by
  by_cases hnm : n = m
  · exact Or.inr hnm
  · left
    unfold clickPassB
    by_cases he : enabledB m t = true
    · simp only [he, if_true]
      rcases m with _ | _ | _ | _ | m
      · exact h
      · show jsTruthy (getPassB n ((analyzePaperB 1 u a t).1).analysis) = true
        rw [analyzePaperB_getPass_ne t 1 n u a hnm]
        exact h
      · show jsTruthy (getPassB n ((analyzePaperB 2 u a t).1).analysis) = true
        rw [analyzePaperB_getPass_ne t 2 n u a hnm]
        exact h
      · show jsTruthy (getPassB n ((analyzePaperB 3 u a t).1).analysis) = true
        rw [analyzePaperB_getPass_ne t 3 n u a hnm]
        exact h
      · exact h
    · simp only [Bool.not_eq_true] at he
      simp only [he, Bool.false_eq_true, if_false]
      exact h

/-- A variant-B state with pass 1 stored, for the C5 counterexample. -/
def c5StoredStateB : StateB :=
  { initStateB with
    file := some ()
    documentId := some "doc1"
    analysis := { pass_1 := .obj [("summary", .str "s")], pass_2 := .null, pass_3 := .null } }

/-- A successful analysis response whose `analysis` field is null. -/
def c5NullResp : AnalyzeRespB := { analysis := .null, images := .null }

/-- C5 counterexample: in the two-phase variant, clicking stored pass 1's
enabled control — an operation that is not a document selection — with a
successful response whose `analysis` field is null overwrites and thereby
removes pass 1's stored result. -/
theorem click_removes_stored_result_in_two_phase :
    storedB 1 c5StoredStateB = true ∧
    storedB 1 (stepB (OpB.click 1 none (some c5NullResp)) c5StoredStateB).1 = false :=
  ⟨rfl, rfl⟩

/-- C5 (amended): pass `n`'s stored result is unchanged by any analysis
call for a different pass `m` (in both variants); selecting a new document
clears every stored result; in the single-request variant a stored result
is removed only by selecting a new document; and in the two-phase variant
it is removed only by selecting a new document or by a click on pass `n`
itself — such a click re-issues the request (there is no stored-result
guard) and a successful response with a falsy `analysis` field overwrites
the stored value. -/
theorem pass_results_only_cleared_by_reset_or_same_pass :
    (∀ (s : StateA) (m n : Nat) (resp : Option AnalyzeRespA), n ≠ m →
      getPassA n ((analyzePaperA m resp s).1).analysis = getPassA n s.analysis)
    ∧ (∀ (t : StateB) (m n : Nat) (u : Option UploadResp) (a : Option AnalyzeRespB),
      n ≠ m →
      getPassB n ((analyzePaperB m u a t).1).analysis = getPassB n t.analysis)
    ∧ (∀ (t : StateB) (f : Option Unit) (n : Nat),
      storedB n (handleFileUploadB f t) = false)
    ∧ (∀ (s : StateA) (op : OpA) (n : Nat),
      storedA n s = true → storedA n (stepA op s).1 = false →
        ∃ f, op = OpA.selectFile f)
    ∧ (∀ (t : StateB) (op : OpB) (n : Nat),
      storedB n t = true → storedB n (stepB op t).1 = false →
        (∃ f, op = OpB.selectFile f) ∨ ∃ u a, op = OpB.click n u a) := by
  refine ⟨fun s m n resp h => analyzePaperA_getPass_ne s m n resp h,
          fun t m n u a h => analyzePaperB_getPass_ne t m n u a h,
          fun t f n => ?_, fun s op n h h2 => ?_, fun t op n h h2 => ?_⟩
  · rcases n with _ | _ | _ | _ | n <;> rfl
  · cases op with
    | selectFile f => exact ⟨f, rfl⟩
    | click m resp =>
      have hp := clickPassA_preserves_stored s m n resp h
      simp only [stepA] at h2
      rw [hp] at h2
      exact Bool.noConfusion h2
  · cases op with
    | selectFile f => exact Or.inl ⟨f, rfl⟩
    | click m u a =>
      rcases clickPassB_preserves_or_same t m n u a h with hp | rfl
      · simp only [stepB] at h2
        rw [hp] at h2
        exact Bool.noConfusion h2
      · exact Or.inr ⟨u, a, rfl⟩

/-- C5 witness: the frame conjunct applied at a concrete two-phase state —
a successful pass-1 analysis leaves pass 2's stored entry unchanged. -/
theorem pass_results_frame_witness :
    getPassB 2 ((analyzePaperB 1 none (some c5NullResp) c5StoredStateB).1).analysis =
      getPassB 2 c5StoredStateB.analysis :=
  pass_results_only_cleared_by_reset_or_same_pass.2.1 c5StoredStateB 1 2 none
    (some c5NullResp) (by decide)
